import Mathlib

/-!
Shallow embedding of the PySyft project-event service
(`packages/syft/src/syft/service/project/project_service.py`) and of the
sync resolution pipeline (`packages/syft/src/syft/client/syncing.py`),
with theorems settling the behavioural claims about sequence validation,
leader arbitration, sync reads, notification propagation, and batch
resolution decisions.
-/

namespace Syft

/-- Errors raised as `SyftException(public_message=...)` in the service code;
we keep the public message string. -/
structure SyftError where
  msg : String
deriving DecidableEq, Repr

/-- Modelled from the spec: a `ProjectEvent` is a tagged variant; the case
`ProjectRequest` carries the server uid targeted by its linked request
(`linked_request.server_uid`). Other event kinds carry no payload relevant
to the service code under study. -/
inductive EventKind
  | request (linked_request_server_uid : Nat)
  | generic
deriving DecidableEq, Repr

/-- Modelled from the spec: generic `ProjectEvent` attributes — unique id,
`seq_no : integer ≥ 1` (optional in transit, hence `Option`), and the id of
the project it belongs to. Creator identity and timestamp are not read by
any code path under study and are omitted. -/
structure ProjectEvent where
  id : Nat
  project_id : Nat
  seq_no : Option Int
  kind : EventKind
deriving DecidableEq, Repr

/-- Modelled from the spec: a project member / peer identity, named by an
opaque verification key (here a `Nat`), with a display name and an id. -/
structure Member where
  verify_key : Nat
  name : String
  id : Nat
deriving DecidableEq, Repr

/-- Modelled from the spec: a `Project` with its designated
`state_sync_leader`, ordered `events`, `event_id_hashmap` index, `members`,
and a permission predicate; `has_permission(identity)` is modelled as
membership of the identity's verify key in `permitted_keys`. -/
structure Project where
  id : Nat
  name : String
  state_sync_leader : Member
  events : List ProjectEvent
  event_id_hashmap : List (Nat × ProjectEvent)
  members : List Member
  permitted_keys : List Nat
deriving DecidableEq, Repr

/-- `Project.has_permission(credentials)` from the spec's data model. -/
def Project.has_permission (p : Project) (credentials : Nat) : Bool :=
  p.permitted_keys.contains credentials

/-- A network peer record held by the network service stash
(`get_by_verify_key`); `client_ok` models whether
`peer.client_with_context(context)` succeeds. -/
structure Peer where
  id : Nat
  verify_key : Nat
  client_ok : Bool
deriving DecidableEq, Repr

/-- The `AuthedServiceContext` together with the external collaborators the
service reaches through it: `credentials` is `context.credentials` (caller
key), `server_verify_key` is `context.server.verify_key`, `peers` is the
network service stash keyed by verify key, and `notification_ok` models the
outcome of `NotificationService.send`. -/
structure ServerCtx where
  credentials : Nat
  server_verify_key : Nat
  server_id : Nat
  peers : List (Nat × Peer)
  notification_ok : Bool
deriving DecidableEq, Repr

/-- The project stash: uid-keyed storage of projects. -/
def Stash := List (Nat × Project)

/-- `stash.get_by_uid(credentials, uid)`: lookup by project uid. -/
def stash_get (stash : Stash) (uid : Nat) : Option Project :=
  (stash.find? (fun kv => kv.1 = uid)).map (·.2)

/-- `stash.update(credentials, project)`: replace the stored project that
has the same uid. -/
def stash_update (stash : Stash) (p : Project) : Stash :=
  stash.map (fun kv => if kv.1 = p.id then (kv.1, p) else kv)

/-- Python dict assignment `event_id_hashmap[event.id] = event`. -/
def hm_set (m : List (Nat × ProjectEvent)) (k : Nat) (v : ProjectEvent) :
    List (Nat × ProjectEvent) :=
  m.filter (fun kv => kv.1 ≠ k) ++ [(k, v)]

/-- `ProjectService.validate_project_leader` (project_service.py:48-54):
raises unless the project leader's verify key equals the *server's* verify
key. -/
def validate_project_leader (ctx : ServerCtx) (p : Project) :
    Except SyftError Unit :=
  if p.state_sync_leader.verify_key ≠ ctx.server_verify_key then
    .error ⟨"Only the project leader can do this operation"⟩
  else .ok ()

/-- `ProjectService.validate_user_permission_for_project`
(project_service.py:56-62). -/
def validate_user_permission_for_project (ctx : ServerCtx) (p : Project) :
    Except SyftError Unit :=
  if ¬ p.has_permission ctx.credentials then
    .error ⟨"User does not have permission to sync events"⟩
  else .ok ()

/-- `ProjectService.validate_project_event_seq` (project_service.py:75-87):
rejects a `None` seq_no; rejects `seq_no ≤ len(events)` while the log is
non-empty; rejects `seq_no > len(events) + 1`; accepts otherwise. -/
def validate_project_event_seq (project_event : ProjectEvent) (p : Project) :
    Except SyftError Unit :=
  match project_event.seq_no with
  | none => .error ⟨"seq_no is None"⟩
  | some s =>
    if s ≤ (p.events.length : Int) ∧ p.events.length > 0 then
      .error ⟨"Project events are out of sync"⟩
    else if s > (p.events.length : Int) + 1 then
      .error ⟨"Project events are out of order!"⟩
    else .ok ()

/-- `ProjectService.is_project_leader` (project_service.py:89-92): compares
the *caller's* credentials with the leader's verify key. -/
def is_project_leader (ctx : ServerCtx) (p : Project) : Bool :=
  ctx.credentials = p.state_sync_leader.verify_key

/-- `ProjectService.check_for_project_request` (project_service.py:366-406):
if the event is a `ProjectRequest` whose linked request targets this server,
send a notification and raise if the send fails. The `@as_result` decorator
turns the raise into a returned error value. -/
def check_for_project_request (ctx : ServerCtx) (project_event : ProjectEvent) :
    Except SyftError Unit :=
  match project_event.kind with
  | .request uid =>
    if uid = ctx.server_id then
      if ctx.notification_ok then .ok ()
      else .error ⟨"notification failed to send"⟩
    else .ok ()
  | .generic => .ok ()

/-- Whether `check_for_project_request` reaches the `NotificationService.send`
call for this event (the notification is attempted). -/
def notification_attempted (ctx : ServerCtx) (project_event : ProjectEvent) :
    Bool :=
  match project_event.kind with
  | .request uid => uid = ctx.server_id
  | .generic => false

/-- Outcome of a service call, with the effect trace the claims talk about:
the final stash (what was persisted), the verify keys of members whose
remote `add_event` was invoked, and whether a notification send was
attempted. -/
structure ServiceOut where
  result : Except SyftError Project
  stash : Stash
  remote_calls : List Nat
  notified : Bool

/-- The member fan-out loop of `broadcast_event` (project_service.py:252-273):
for every member other than self, resolve the peer (fail if absent), open a
remote client (fail if it cannot be created), and invoke the member's remote
`add_event`. Returns the error that aborted the loop, if any, together with
the remote calls made before the abort. -/
def broadcast_loop (ctx : ServerCtx) : List Member →
    Option SyftError × List Nat
  | [] => (none, [])
  | m :: rest =>
    if m.verify_key = ctx.server_verify_key then broadcast_loop ctx rest
    else
      match (ctx.peers.find? (fun kv => kv.1 = m.verify_key)).map (·.2) with
      | none =>
        (some ⟨"Leader server does not have peer " ++ m.name⟩, [])
      | some peer =>
        if peer.client_ok then
          let (e, calls) := broadcast_loop ctx rest
          (e, m.verify_key :: calls)
        else
          (some ⟨"Failed to create remote client for peer"⟩, [])

/-- `ProjectService.add_event` (project_service.py:184-219): fetch the
project, check `validate_project_leader` (unwrapped, so its failure aborts),
check `is_project_leader`, append the event, update the index, call
`check_for_project_request` *without* `.unwrap()` (its result is discarded),
persist, and report success. -/
def add_event (ctx : ServerCtx) (stash : Stash) (project_event : ProjectEvent) :
    ServiceOut :=
  match stash_get stash project_event.project_id with
  | none => ⟨.error ⟨"Project not found"⟩, stash, [], false⟩
  | some project =>
    match validate_project_leader ctx project with
    | .error _ =>
      ⟨.error ⟨"Project Events should be passed to leader by broadcast endpoint"⟩,
        stash, [], false⟩
    | .ok _ =>
      if ¬ is_project_leader ctx project then
        ⟨.error ⟨"Only the leader of the project can add events"⟩, stash, [], false⟩
      else
        let project' := { project with
          events := project.events ++ [project_event],
          event_id_hashmap := hm_set project.event_id_hashmap project_event.id project_event }
        let _ := check_for_project_request ctx project_event
        let stash' := stash_update stash project'
        ⟨.ok project', stash', [], notification_attempted ctx project_event⟩

/-- `ProjectService.broadcast_event` (project_service.py:227-280): fetch the
project, check `validate_project_leader` (unwrapped), call
`validate_user_permission_for_project` *without* `.unwrap()` (result
discarded), check `validate_project_event_seq` (unwrapped), append the event
locally, call `check_for_project_request` without `.unwrap()`, fan the event
out to every other member (aborting on the first peer failure), then persist
and report success. -/
def broadcast_event (ctx : ServerCtx) (stash : Stash)
    (project_event : ProjectEvent) : ServiceOut :=
  match stash_get stash project_event.project_id with
  | none => ⟨.error ⟨"Project not found"⟩, stash, [], false⟩
  | some project =>
    match validate_project_leader ctx project with
    | .error _ =>
      ⟨.error ⟨"Only the leader of the project can broadcast events"⟩,
        stash, [], false⟩
    | .ok _ =>
      let _ := validate_user_permission_for_project ctx project
      match validate_project_event_seq project_event project with
      | .error e => ⟨.error e, stash, [], false⟩
      | .ok _ =>
        let project' := { project with
          events := project.events ++ [project_event],
          event_id_hashmap := hm_set project.event_id_hashmap project_event.id project_event }
        let _ := check_for_project_request ctx project_event
        let notified := notification_attempted ctx project_event
        match broadcast_loop ctx project'.members with
        | (some e, calls) => ⟨.error e, stash, calls, notified⟩
        | (none, calls) =>
          ⟨.ok project', stash_update stash project', calls, notified⟩

/-- `ProjectService.sync` (project_service.py:287-304): rejects a negative
`seq_no`, fetches the project, calls `validate_project_leader` and
`validate_user_permission_for_project` *without* `.unwrap()` (both results
are discarded), and returns `events[seq_no:]`. -/
def sync_service (ctx : ServerCtx) (stash : Stash) (project_id : Nat)
    (seq_no : Int) : Except SyftError (List ProjectEvent) :=
  if seq_no < 0 then
    .error ⟨"Input seq_no should be a non negative integer"⟩
  else
    match stash_get stash project_id with
    | none => .error ⟨"Project not found"⟩
    | some project =>
      let _ := validate_project_leader ctx project
      let _ := validate_user_permission_for_project ctx project
      .ok (project.events.drop seq_no.toNat)

/-! ## Sync resolution pipeline (`client/syncing.py`) -/

/-- Modelled from the spec: a synced object is a `UserCode` (governing code,
carrying the user's verify key), a `Job`, or some other object; each object
variant answers the capability query `_has_private_sync_attrs()`. -/
inductive Obj
  | userCode (user_verify_key : Nat) (priv : Bool)
  | job (priv : Bool)
  | other (priv : Bool)
deriving DecidableEq, Repr

/-- `obj._has_private_sync_attrs()`. -/
def Obj.hasPrivateSyncAttrs : Obj → Bool
  | .userCode _ p => p
  | .job p => p
  | .other p => p

/-- `isinstance(obj, UserCode)`. -/
def Obj.isUserCode : Obj → Bool
  | .userCode _ _ => true
  | _ => false

/-- `isinstance(obj, Job)`. -/
def Obj.isJob : Obj → Bool
  | .job _ => true
  | _ => false

/-- `user_code.user_verify_key` (meaningful on the `userCode` variant). -/
def Obj.user_verify_key : Obj → Nat
  | .userCode k _ => k
  | _ => 0

/-- Modelled from the spec: `ObjectDiff` — one entity's comparison result,
with `object_id`, a display `object_type`, a `status` label (the code only
compares it with the literal string SAME), and the two optional sides. -/
structure ObjectDiff where
  object_id : Nat
  object_type : String
  status : String
  low_obj : Option Obj
  high_obj : Option Obj
deriving DecidableEq, Repr

/-- Modelled from the spec: an `ObjectDiffBatch` is an ordered sequence of
dependency-linked diffs. -/
structure ObjectDiffBatch where
  diffs : List ObjectDiff
deriving DecidableEq, Repr

/-- Modelled from the spec: `NodeDiff` is the ordered sequence of batches
(`hierarchies`). -/
structure NodeDiff where
  hierarchies : List ObjectDiffBatch
deriving DecidableEq, Repr

/-- `ActionPermission` kinds (only READ is used by sync). -/
inductive ActionPermission
  | READ
  | WRITE
deriving DecidableEq, Repr

/-- `ActionObjectPermission(uid, permission, credentials)`. -/
structure ActionObjectPermission where
  uid : Nat
  permission : ActionPermission
  credentials : Nat
deriving DecidableEq, Repr

/-- `SyncDecision(diff, decision, new_permissions_lowside, mockify)`. -/
structure SyncDecision where
  diff : ObjectDiff
  decision : String
  new_permissions_lowside : List ActionObjectPermission
  mockify : Bool
deriving DecidableEq, Repr

/-- `ResolvedSyncState(alias)` with its append-only decision list. -/
structure ResolvedSyncState where
  state_alias : String
  decisions : List SyncDecision
deriving DecidableEq, Repr

/-- `ResolvedSyncState.add_sync_decision`: append-only. -/
def ResolvedSyncState.add_sync_decision (s : ResolvedSyncState)
    (d : SyncDecision) : ResolvedSyncState :=
  { s with decisions := s.decisions ++ [d] }

/-- Failure modes of the resolution pipeline: the two `ValueError`s raised in
`get_sync_decisions_for_batch_items`, the `ValueError` for a Job without
user code, the crash of accessing `user_code.user_verify_key` on `None`
(unreachable from the guarded call sites), and exhaustion of the scripted
interactive input (`input()` with nothing left, an `EOFError` in Python). -/
inductive ResolveError
  | tooManyUserCodes
  | ungovernedPrivate
  | jobWithoutUserCode
  | noneUserCodeCrash
  | inputExhausted
deriving DecidableEq, Repr

/-- `get_user_input_for_resolve` (syncing.py:23-35): read scripted inputs
until one lowercases to low or high; exhausting the script models blocking
forever / EOF. -/
def get_user_input_for_resolve : List String → Option (String × List String)
  | [] => none
  | s :: rest =>
    let decision := s.toLower
    if decision = "low" ∨ decision = "high" then some (decision, rest)
    else get_user_input_for_resolve rest

/-- Python str.startswith, evaluated on the character sequences of the two
strings. -/
def pyStartsWith (s p : String) : Bool :=
  p.toList.isPrefixOf s.toList

/-- The `while len(remaining_private_high_diffs)` loop of
`ask_user_input_permission` (syncing.py:195-246), with `input()` reading from
an explicit script. An input of no exits the loop; an input of length ≥ 3 is
prefix-matched against the remaining diffs' ids: zero matches re-prompts, a
unique match moves the diff from `remaining` to `shared` and re-prompts, and
multiple matches print exiting and break out of the loop; any shorter input
re-prompts. -/
def askLoop : List ObjectDiff → List ObjectDiff → List String →
    Except ResolveError (List ObjectDiff × List String)
  | remaining, shared, [] =>
    if remaining.isEmpty then .ok (shared, []) else .error .inputExhausted
  | remaining, shared, res :: rest =>
    if remaining.isEmpty then .ok (shared, res :: rest)
    else if res = "no" then .ok (shared, rest)
    else if 3 ≤ res.length then
      match remaining.filter
          (fun d => pyStartsWith (toString d.object_id) res) with
      | [] => askLoop remaining shared rest
      | [d] => askLoop (remaining.erase d) (shared ++ [d]) rest
      | _ => .ok (shared, rest)
    else askLoop remaining shared rest

/-- `ask_user_input_permission(user_code, all_private_high_diffs)`
(syncing.py:183-248): returns immediately when there is nothing private;
otherwise reads `user_code.user_verify_key` (a crash when `user_code` is
`None`) and runs the interactive selection loop over a copy of the list. -/
def ask_user_input_permission (user_code : Option Obj)
    (all_private_high_diffs : List ObjectDiff) (script : List String) :
    Except ResolveError (List ObjectDiff × List String) :=
  if all_private_high_diffs.isEmpty then .ok ([], script)
  else
    match user_code with
    | none => .error .noneUserCodeCrash
    | some _ => askLoop all_private_high_diffs [] script

/-- The filter building `unpublished_private_high_diffs`
(syncing.py:91-95): diffs whose `high_obj` is present and has private sync
attrs. -/
def unpublishedPrivateHighDiffs (batch_diff : ObjectDiffBatch) :
    List ObjectDiff :=
  batch_diff.diffs.filter (fun diff =>
    match diff.high_obj with
    | some o => o.hasPrivateSyncAttrs
    | none => false)

/-- The comprehension building `user_codes_high` (syncing.py:97-101): the
high-side objects that are `UserCode` instances, in diff order. -/
def userCodesHigh (batch_diff : ObjectDiffBatch) : List Obj :=
  (batch_diff.diffs.filterMap (·.high_obj)).filter Obj.isUserCode

/-- The per-diff body of the decision loop (syncing.py:119-165): Job-typed
high objects are always granted READ for the governing user (an error if
there is no governing code); unpublished private diffs selected for sharing
get the same single READ grant; unselected ones get no grants and
`mockify = True`; everything else is shared with no grants. -/
def decideDiff (user_code_high : Option Obj)
    (unpublished shared : List ObjectDiff) (decision : String)
    (diff : ObjectDiff) : Except ResolveError SyncDecision :=
  let is_unpublished_private_diff := unpublished.contains diff
  let has_share_decision := shared.contains diff
  if (match diff.high_obj with | some o => o.isJob | none => false) then
    match user_code_high with
    | none => .error .jobWithoutUserCode
    | some uc =>
      .ok ⟨diff, decision,
        [⟨diff.object_id, .READ, uc.user_verify_key⟩], false⟩
  else if is_unpublished_private_diff && has_share_decision then
    match user_code_high with
    | none => .error .noneUserCodeCrash
    | some uc =>
      .ok ⟨diff, decision,
        [⟨diff.object_id, .READ, uc.user_verify_key⟩], false⟩
  else if is_unpublished_private_diff && !has_share_decision then
    .ok ⟨diff, decision, [], true⟩
  else
    .ok ⟨diff, decision, [], false⟩

/-- The `sync_decisions` accumulation loop: one decision appended per diff,
in order, aborting the call on the first raised error. -/
def mapExcept (f : α → Except ε β) : List α → Except ε (List β)
  | [] => .ok []
  | a :: l =>
    match f a with
    | .error e => .error e
    | .ok b =>
      match mapExcept f l with
      | .error e => .error e
      | .ok bs => .ok (b :: bs)

/-- The sharing-selection step (syncing.py:112-117): share everything
private when `share_private_objects` is set, otherwise ask the user. -/
def computeSharedDiffs (batch_diff : ObjectDiffBatch)
    (share_private_objects : Bool) (script : List String) :
    Except ResolveError (List ObjectDiff × List String) :=
  if share_private_objects then
    .ok (unpublishedPrivateHighDiffs batch_diff, script)
  else
    ask_user_input_permission (userCodesHigh batch_diff).head?
      (unpublishedPrivateHighDiffs batch_diff) script

/-- `get_sync_decisions_for_batch_items` (syncing.py:84-167): partition out
the unpublished private high diffs, find the at-most-one governing
`UserCode` (error on more than one; error when private diffs exist without
one), determine the shared subset, then derive one `SyncDecision` per diff. -/
def get_sync_decisions_for_batch_items (batch_diff : ObjectDiffBatch)
    (decision : String) (share_private_objects : Bool)
    (script : List String) :
    Except ResolveError (List SyncDecision × List String) :=
  let unpublished := unpublishedPrivateHighDiffs batch_diff
  let user_codes_high := userCodesHigh batch_diff
  if user_codes_high.length > 1 then .error .tooManyUserCodes
  else
    let user_code_high := user_codes_high.head?
    if user_code_high.isNone && !unpublished.isEmpty then
      .error .ungovernedPrivate
    else
      match computeSharedDiffs batch_diff share_private_objects script with
      | .error e => .error e
      | .ok (shared, script') =>
        match mapExcept
            (decideDiff user_code_high unpublished shared decision)
            batch_diff.diffs with
        | .error e => .error e
        | .ok ds => .ok (ds, script')

/-- The batch loop of `resolve` (syncing.py:46-79): all-SAME batches are
skipped before any printing or prompting; otherwise the per-batch decision
is the upfront one or is prompted for, the batch's sync decisions are
computed, and each decision is folded into both accumulators. -/
def resolveLoop (share_private_objects : Bool) (decision : Option String) :
    List ObjectDiffBatch → ResolvedSyncState → ResolvedSyncState →
    List String →
    Except ResolveError (ResolvedSyncState × ResolvedSyncState × List String)
  | [], lo, hi, script => .ok (lo, hi, script)
  | batch_diff :: rest, lo, hi, script =>
    if batch_diff.diffs.all (fun diff => diff.status = "SAME") then
      resolveLoop share_private_objects decision rest lo hi script
    else
      match
        (match decision with
         | some d => Except.ok (d, script)
         | none =>
           match get_user_input_for_resolve script with
           | none => Except.error ResolveError.inputExhausted
           | some (d, script') => Except.ok (d, script')) with
      | .error e => .error e
      | .ok (batch_decision, script1) =>
        match get_sync_decisions_for_batch_items batch_diff batch_decision
            share_private_objects script1 with
        | .error e => .error e
        | .ok (sync_decisions, script2) =>
          resolveLoop share_private_objects decision rest
            (sync_decisions.foldl ResolvedSyncState.add_sync_decision lo)
            (sync_decisions.foldl ResolvedSyncState.add_sync_decision hi)
            script2

/-- `resolve(state, decision, share_private_objects)` (syncing.py:38-81). -/
def resolve (state : NodeDiff) (decision : Option String)
    (share_private_objects : Bool) (script : List String) :
    Except ResolveError (ResolvedSyncState × ResolvedSyncState × List String) :=
  resolveLoop share_private_objects decision state.hierarchies
    ⟨"low", []⟩ ⟨"high", []⟩ script

/-! ## Concrete fixtures used by witnesses and counterexamples -/

/-- A generic event with `seq_no = 1` for project 1. -/
def wEvent : ProjectEvent := ⟨10, 1, some 1, .generic⟩

/-- A `ProjectRequest` event targeting server uid 5, with `seq_no = 1`. -/
def wRequestEvent : ProjectEvent := ⟨11, 1, some 1, .request 5⟩

/-- The leader member, verify key 1. -/
def wLeader : Member := ⟨1, "L", 100⟩

/-- An empty-log project led by `wLeader`, sole member the leader. -/
def wProject : Project := ⟨1, "p", wLeader, [], [], [wLeader], [1, 3]⟩

/-- A stash holding only `wProject`. -/
def wStash : Stash := [(1, wProject)]

/-- A context for the leader server (key 1, server uid 5) whose notification
collaborator fails every send. -/
def wLeaderCtxNotifFail : ServerCtx := ⟨1, 1, 5, [], false⟩

/-- A context for a non-leader server (key 2) with non-member caller key 9. -/
def wNonLeaderCtx : ServerCtx := ⟨9, 2, 6, [], true⟩

/-- A project led by `wLeader` that already holds one event and grants
permission to nobody. -/
def wProjectOneEvent : Project := ⟨1, "p", wLeader, [wEvent], [], [wLeader], []⟩

/-- High-side governing user code of user 7. -/
def wUC : ObjectDiff := ⟨500, "UserCode", "NEW", none, some (.userCode 7 false)⟩

/-- High-side job diff. -/
def wJob : ObjectDiff := ⟨600, "Job", "NEW", none, some (.job false)⟩

/-- High-side private, unpublished result diff. -/
def wRes : ObjectDiff := ⟨1000, "Result", "NEW", none, some (.other true)⟩

/-- A second private result whose id shares its first three characters
with `wRes`. -/
def wRes2 : ObjectDiff := ⟨1001, "Result", "NEW", none, some (.other true)⟩

/-- The scenario-C batch: user code, then job, then private result. -/
def wBatch : ObjectDiffBatch := ⟨[wUC, wJob, wRes]⟩

/-- A batch whose only diff has status SAME. -/
def wSameBatch : ObjectDiffBatch := ⟨[⟨700, "Log", "SAME", none, none⟩]⟩

/-- A batch containing two governing user codes. -/
def wTwoCodesBatch : ObjectDiffBatch := ⟨[wUC, ⟨501, "UserCode", "NEW", none, some (.userCode 8 false)⟩]⟩

/-- The sync decisions produced for `wBatch` when everything is shared. -/
def wBatchSharedDecisions : List SyncDecision :=
  [⟨wUC, "low", [], false⟩,
   ⟨wJob, "low", [⟨600, .READ, 7⟩], false⟩,
   ⟨wRes, "low", [⟨1000, .READ, 7⟩], false⟩]

/-- The sync decisions produced for `wBatch` when the user declines to share
the private result. -/
def wBatchDeclinedDecisions : List SyncDecision :=
  [⟨wUC, "low", [], false⟩,
   ⟨wJob, "low", [⟨600, .READ, 7⟩], false⟩,
   ⟨wRes, "low", [], true⟩]

/-! ## Helper lemmas -/

/-- A successful `mapExcept` run produces one output per input. -/
theorem mapExcept_ok_length {α β ε : Type} {f : α → Except ε β} :
    ∀ {l : List α} {bs : List β}, mapExcept f l = .ok bs → bs.length = l.length := by
  intro l
  induction l with
  | nil =>
    intro bs h
    simp only [mapExcept] at h
    cases h
    rfl
  | cons a l ih =>
    intro bs h
    simp only [mapExcept] at h
    cases hfa : f a with
    | error e => rw [hfa] at h; cases h
    | ok b =>
      rw [hfa] at h
      cases hrec : mapExcept f l with
      | error e => rw [hrec] at h; cases h
      | ok bs' =>
        rw [hrec] at h
        cases h
        simp [ih hrec]

/-- A successful `mapExcept` run applies `f` successfully at every index. -/
theorem mapExcept_ok_get {α β ε : Type} {f : α → Except ε β} :
    ∀ {l : List α} {bs : List β}, mapExcept f l = .ok bs →
      ∀ i (h1 : i < l.length) (h2 : i < bs.length),
        f (l.get ⟨i, h1⟩) = .ok (bs.get ⟨i, h2⟩) := by
  intro l
  induction l with
  | nil =>
    intro bs h i h1 h2
    exact absurd h1 (by simp)
  | cons a l ih =>
    intro bs h i h1 h2
    simp only [mapExcept] at h
    cases hfa : f a with
    | error e => rw [hfa] at h; cases h
    | ok b =>
      rw [hfa] at h
      cases hrec : mapExcept f l with
      | error e => rw [hrec] at h; cases h
      | ok bs' =>
        rw [hrec] at h
        cases h
        cases i with
        | zero => simpa using hfa
        | succ j =>
          exact ih hrec j (Nat.lt_of_succ_lt_succ h1) (Nat.lt_of_succ_lt_succ h2)

/-- Decomposition of a successful `get_sync_decisions_for_batch_items` call:
the guards passed, some shared subset was computed, and every diff's
decision came from `decideDiff` on that subset. -/
theorem get_sync_ok_elim {batch_diff : ObjectDiffBatch} {decision : String}
    {share : Bool} {script : List String} {ds : List SyncDecision}
    {script' : List String}
    (h : get_sync_decisions_for_batch_items batch_diff decision share script =
      .ok (ds, script')) :
    ∃ shared,
      computeSharedDiffs batch_diff share script = .ok (shared, script') ∧
      mapExcept
        (decideDiff (userCodesHigh batch_diff).head?
          (unpublishedPrivateHighDiffs batch_diff) shared decision)
        batch_diff.diffs = .ok ds := by
  simp only [get_sync_decisions_for_batch_items] at h
  split at h
  · cases h
  · split at h
    · cases h
    · split at h
      · cases h
      · rename_i heq
        split at h
        · cases h
        · rename_i heq2
          cases h
          exact ⟨_, heq, heq2⟩

/-- In every successful branch, `decideDiff` records the originating diff
and the supplied decision side. -/
theorem decideDiff_ok_fields {uc : Option Obj} {unpub shared : List ObjectDiff}
    {decision : String} {diff : ObjectDiff} {sd : SyncDecision}
    (h : decideDiff uc unpub shared decision diff = .ok sd) :
    sd.diff = diff ∧ sd.decision = decision := by
  simp only [decideDiff] at h
  split at h
  · split at h
    · cases h
    · cases h; exact ⟨rfl, rfl⟩
  · split at h
    · split at h
      · cases h
      · cases h; exact ⟨rfl, rfl⟩
    · split at h
      · cases h; exact ⟨rfl, rfl⟩
      · cases h; exact ⟨rfl, rfl⟩

/-- A diff whose high object is private sits in
`unpublishedPrivateHighDiffs`. -/
theorem contains_unpublished {batch_diff : ObjectDiffBatch}
    {diff : ObjectDiff} {o : Obj} (hmem : diff ∈ batch_diff.diffs)
    (hhigh : diff.high_obj = some o) (hpriv : o.hasPrivateSyncAttrs = true) :
    (unpublishedPrivateHighDiffs batch_diff).contains diff = true := by
  apply List.elem_eq_true_of_mem
  unfold unpublishedPrivateHighDiffs
  rw [List.mem_filter]
  exact ⟨hmem, by rw [hhigh]; exact hpriv⟩

/-! ## Claims -/

/-- C1: for a project with `N` events and an event carrying `seq_no = s`
with `s ≥ 1` (the data model's invariant on sequence numbers), the
broadcast-path sequence validation accepts exactly when `s = N + 1`; it
fails with the out-of-sync error when `s ≤ N` while the log is non-empty,
and with the out-of-order error when `s > N + 1`. -/
theorem seq_validation_accepts_exactly_next (p : Project)
    (project_event : ProjectEvent) (s : Int)
    (hseq : project_event.seq_no = some s) (h1 : 1 ≤ s) :
    (validate_project_event_seq project_event p = .ok () ↔
      s = (p.events.length : Int) + 1)
    ∧ (s ≤ (p.events.length : Int) ∧ 0 < p.events.length →
        validate_project_event_seq project_event p =
          .error ⟨"Project events are out of sync"⟩)
    ∧ ((p.events.length : Int) + 1 < s →
        validate_project_event_seq project_event p =
          .error ⟨"Project events are out of order!"⟩) := by
  simp only [validate_project_event_seq, hseq]
  refine ⟨?_, ?_, ?_⟩
  · split_ifs with h2 h3
    · simp only [reduceCtorEq, false_iff]
      omega
    · simp only [reduceCtorEq, false_iff]
      omega
    · simp only [true_iff]
      omega
  · intro h2
    rw [if_pos]
    omega
  · intro h3
    rw [if_neg, if_pos]
    · omega
    · omega

/-- Witness for C1 at a concrete empty-log project and `seq_no = 1`. -/
theorem seq_validation_accepts_exactly_next_witness :
    (validate_project_event_seq wEvent wProject = .ok () ↔
      (1 : Int) = (wProject.events.length : Int) + 1)
    ∧ ((1 : Int) ≤ (wProject.events.length : Int) ∧ 0 < wProject.events.length →
        validate_project_event_seq wEvent wProject =
          .error ⟨"Project events are out of sync"⟩)
    ∧ ((wProject.events.length : Int) + 1 < 1 →
        validate_project_event_seq wEvent wProject =
          .error ⟨"Project events are out of order!"⟩) :=
  seq_validation_accepts_exactly_next wProject wEvent 1 rfl (by decide)

/-- C2: a `broadcast_event` call on a server that is not the project's
`state_sync_leader` fails with the leader permission error, leaves the stash
(and hence the stored events) untouched, contacts no peer, and attempts no
notification. -/
theorem broadcast_event_nonleader_rejected (ctx : ServerCtx) (stash : Stash)
    (project_event : ProjectEvent) (project : Project)
    (hget : stash_get stash project_event.project_id = some project)
    (hlead : project.state_sync_leader.verify_key ≠ ctx.server_verify_key) :
    broadcast_event ctx stash project_event =
      ⟨.error ⟨"Only the leader of the project can broadcast events"⟩,
        stash, [], false⟩ := by
  simp only [broadcast_event, hget, validate_project_leader, if_pos hlead]

/-- Witness for C2: a non-leader server attempting the broadcast. -/
theorem broadcast_event_nonleader_rejected_witness :
    broadcast_event wNonLeaderCtx wStash wEvent =
      ⟨.error ⟨"Only the leader of the project can broadcast events"⟩,
        wStash, [], false⟩ :=
  broadcast_event_nonleader_rejected wNonLeaderCtx wStash wEvent wProject
    (by rfl) (by decide)

/-- C3 evidence: `sync` applies no effective leader or permission check —
the validator results are discarded at project_service.py:301-302 — so a
caller that is neither the leader (server key 2 vs leader key 1) nor
permitted (credentials 9, `permitted_keys = []`) still receives
`events[0:]`, even though both validators reject that caller. -/
theorem sync_skips_permission_checks :
    validate_project_leader wNonLeaderCtx wProjectOneEvent =
      .error ⟨"Only the project leader can do this operation"⟩
    ∧ validate_user_permission_for_project wNonLeaderCtx wProjectOneEvent =
      .error ⟨"User does not have permission to sync events"⟩
    ∧ sync_service wNonLeaderCtx [(1, wProjectOneEvent)] 1 0 = .ok [wEvent]
    ∧ sync_service wNonLeaderCtx [(1, wProjectOneEvent)] 1 (-1) =
      .error ⟨"Input seq_no should be a non negative integer"⟩
    ∧ sync_service wNonLeaderCtx [(1, wProjectOneEvent)] 1 1 = .ok [] := by
  refine ⟨rfl, rfl, rfl, rfl, rfl⟩

/-- C4 evidence: a failing notification send makes
`check_for_project_request` return an error, but `add_event` and
`broadcast_event` discard that result (no `.unwrap()` at
project_service.py:212 and 248) and still report success, with the event
appended and persisted. -/
theorem notification_failure_swallowed :
    check_for_project_request wLeaderCtxNotifFail wRequestEvent =
      .error ⟨"notification failed to send"⟩
    ∧ (add_event wLeaderCtxNotifFail wStash wRequestEvent).notified = true
    ∧ (add_event wLeaderCtxNotifFail wStash wRequestEvent).result.isOk = true
    ∧ (broadcast_event wLeaderCtxNotifFail wStash wRequestEvent).notified = true
    ∧ (broadcast_event wLeaderCtxNotifFail wStash wRequestEvent).result.isOk
      = true := by
  refine ⟨rfl, rfl, rfl, rfl, rfl⟩

/-- C5: a batch with more than one governing `UserCode` among its high-side
objects makes `get_sync_decisions_for_batch_items` fail with the
too-many-user-codes error, and a batch with unpublished private high diffs
but no `UserCode` fails with the ungoverned-private error; in either case
the surrounding `resolve` loop stops with that error instead of skipping the
batch. -/
theorem governing_object_errors_abort_resolve (batch_diff : ObjectDiffBatch)
    (d : String) (share : Bool) (script : List String)
    (rest : List ObjectDiffBatch) (lo hi : ResolvedSyncState)
    (hsame : batch_diff.diffs.all (fun diff => diff.status = "SAME") = false) :
    (1 < (userCodesHigh batch_diff).length →
      get_sync_decisions_for_batch_items batch_diff d share script =
        .error .tooManyUserCodes
      ∧ resolveLoop share (some d) (batch_diff :: rest) lo hi script =
        .error .tooManyUserCodes)
    ∧ (userCodesHigh batch_diff = [] →
      unpublishedPrivateHighDiffs batch_diff ≠ [] →
      get_sync_decisions_for_batch_items batch_diff d share script =
        .error .ungovernedPrivate
      ∧ resolveLoop share (some d) (batch_diff :: rest) lo hi script =
        .error .ungovernedPrivate) := by
  constructor
  · intro h1
    have hg : get_sync_decisions_for_batch_items batch_diff d share script =
        .error .tooManyUserCodes := by
      simp only [get_sync_decisions_for_batch_items]
      rw [if_pos h1]
    refine ⟨hg, ?_⟩
    simp only [resolveLoop, hsame, Bool.false_eq_true, if_false, hg]
  · intro h0 hne
    have hempty : (unpublishedPrivateHighDiffs batch_diff).isEmpty = false := by
      simpa [List.isEmpty_iff] using hne
    have hg : get_sync_decisions_for_batch_items batch_diff d share script =
        .error .ungovernedPrivate := by
      simp [get_sync_decisions_for_batch_items, h0, hempty]
    refine ⟨hg, ?_⟩
    simp only [resolveLoop, hsame, Bool.false_eq_true, if_false, hg]

/-- Witness for C5: a batch holding two `UserCode` objects aborts both the
batch-decision computation and the whole resolve loop. -/
theorem governing_object_errors_abort_resolve_witness :
    get_sync_decisions_for_batch_items wTwoCodesBatch "low" true [] =
      .error .tooManyUserCodes
    ∧ resolveLoop true (some "low") [wTwoCodesBatch] ⟨"low", []⟩ ⟨"high", []⟩
        [] = .error .tooManyUserCodes :=
  (governing_object_errors_abort_resolve wTwoCodesBatch "low" true [] []
    ⟨"low", []⟩ ⟨"high", []⟩ (by decide)).1 (by decide)

/-- C10: a successful `get_sync_decisions_for_batch_items` call yields
exactly one `SyncDecision` per diff, in batch order, each carrying the
supplied decision side and referencing its originating diff. -/
theorem one_decision_per_diff (batch_diff : ObjectDiffBatch)
    (decision : String) (share : Bool) (script : List String)
    (ds : List SyncDecision) (script' : List String)
    (h : get_sync_decisions_for_batch_items batch_diff decision share script =
      .ok (ds, script')) :
    ds.length = batch_diff.diffs.length
    ∧ ∀ i (h1 : i < batch_diff.diffs.length) (h2 : i < ds.length),
        (ds.get ⟨i, h2⟩).decision = decision
        ∧ (ds.get ⟨i, h2⟩).diff = batch_diff.diffs.get ⟨i, h1⟩ := by
  obtain ⟨shared, _hcs, hm⟩ := get_sync_ok_elim h
  refine ⟨mapExcept_ok_length hm, ?_⟩
  intro i h1 h2
  have hfields := decideDiff_ok_fields (mapExcept_ok_get hm i h1 h2)
  exact ⟨hfields.2, hfields.1⟩

/-- Witness for C10 on the scenario batch with everything shared. -/
theorem one_decision_per_diff_witness :
    wBatchSharedDecisions.length = wBatch.diffs.length
    ∧ ((wBatchSharedDecisions.get ⟨2, by decide⟩).decision = "low"
      ∧ (wBatchSharedDecisions.get ⟨2, by decide⟩).diff =
          wBatch.diffs.get ⟨2, by decide⟩) :=
  ⟨(one_decision_per_diff wBatch "low" true [] wBatchSharedDecisions [] rfl).1,
   (one_decision_per_diff wBatch "low" true [] wBatchSharedDecisions [] rfl).2
     2 (by decide) (by decide)⟩

/-- C7: in a successful batch resolution, every diff whose high-side object
is `Job`-typed receives `mockify = false` and exactly one READ grant on its
object id to the governing code's user, for any share flag and any
interactive script. -/
theorem job_diffs_always_shared (batch_diff : ObjectDiffBatch)
    (decision : String) (share : Bool) (script : List String)
    (ds : List SyncDecision) (script' : List String) (i : Nat) (o : Obj)
    (h : get_sync_decisions_for_batch_items batch_diff decision share script =
      .ok (ds, script'))
    (h1 : i < batch_diff.diffs.length) (h2 : i < ds.length)
    (hhigh : (batch_diff.diffs.get ⟨i, h1⟩).high_obj = some o)
    (hjob : o.isJob = true) :
    (ds.get ⟨i, h2⟩).mockify = false
    ∧ ∃ uc, (userCodesHigh batch_diff).head? = some uc
        ∧ (ds.get ⟨i, h2⟩).new_permissions_lowside =
          [⟨(batch_diff.diffs.get ⟨i, h1⟩).object_id, .READ,
            uc.user_verify_key⟩] := by
  obtain ⟨shared, _hcs, hm⟩ := get_sync_ok_elim h
  have hd := mapExcept_ok_get hm i h1 h2
  simp only [decideDiff, hhigh, hjob, if_pos] at hd
  cases huc : (userCodesHigh batch_diff).head? with
  | none => rw [huc] at hd; cases hd
  | some uc =>
    rw [huc] at hd
    injection hd with hd
    refine ⟨?_, uc, rfl, ?_⟩
    · rw [← hd]
    · rw [← hd]

/-- Witness for C7 on the scenario batch: the job diff at index 1 gets the
single READ grant for the governing user key 7 and no mockification. -/
theorem job_diffs_always_shared_witness :
    (wBatchSharedDecisions.get ⟨1, by decide⟩).mockify = false
    ∧ ∃ uc, (userCodesHigh wBatch).head? = some uc
        ∧ (wBatchSharedDecisions.get ⟨1, by decide⟩).new_permissions_lowside =
          [⟨(wBatch.diffs.get ⟨1, by decide⟩).object_id, .READ,
            uc.user_verify_key⟩] :=
  job_diffs_always_shared wBatch "low" true [] wBatchSharedDecisions [] 1
    (.job false) rfl (by decide) (by decide) rfl rfl

/-- C6: in a successful batch resolution, a private unpublished high-side
diff that is not `Job`-typed yields `mockify = true` with no grants when it
is not in the computed share selection, and `mockify = false` with exactly
one READ grant on its object id to the governing code's user when it is. -/
theorem private_diff_share_decision (batch_diff : ObjectDiffBatch)
    (decision : String) (share : Bool) (script : List String)
    (ds : List SyncDecision) (script' script2 : List String)
    (shared : List ObjectDiff) (i : Nat) (o : Obj)
    (h : get_sync_decisions_for_batch_items batch_diff decision share script =
      .ok (ds, script'))
    (hcs : computeSharedDiffs batch_diff share script = .ok (shared, script2))
    (h1 : i < batch_diff.diffs.length) (h2 : i < ds.length)
    (hhigh : (batch_diff.diffs.get ⟨i, h1⟩).high_obj = some o)
    (hjob : o.isJob = false) (hpriv : o.hasPrivateSyncAttrs = true) :
    (shared.contains (batch_diff.diffs.get ⟨i, h1⟩) = false →
      (ds.get ⟨i, h2⟩).mockify = true
      ∧ (ds.get ⟨i, h2⟩).new_permissions_lowside = [])
    ∧ (shared.contains (batch_diff.diffs.get ⟨i, h1⟩) = true →
      (ds.get ⟨i, h2⟩).mockify = false
      ∧ ∃ uc, (userCodesHigh batch_diff).head? = some uc
          ∧ (ds.get ⟨i, h2⟩).new_permissions_lowside =
            [⟨(batch_diff.diffs.get ⟨i, h1⟩).object_id, .READ,
              uc.user_verify_key⟩]) := by
  obtain ⟨shared0, hcs0, hm⟩ := get_sync_ok_elim h
  have hsh : shared0 = shared := by
    have hpair := hcs0.symm.trans hcs
    injection hpair with hpair
    exact congrArg Prod.fst hpair
  subst hsh
  have hunp : (unpublishedPrivateHighDiffs batch_diff).contains
      (batch_diff.diffs.get ⟨i, h1⟩) = true :=
    contains_unpublished (List.get_mem _ i h1) hhigh hpriv
  have hd := mapExcept_ok_get hm i h1 h2
  simp only [decideDiff, hhigh, hjob, Bool.false_eq_true, if_false, hunp,
    Bool.true_and] at hd
  constructor
  · intro hnoshare
    rw [hnoshare] at hd
    simp only [Bool.not_false, if_pos] at hd
    injection hd with hd
    exact ⟨by rw [← hd], by rw [← hd]⟩
  · intro hshare
    rw [hshare] at hd
    simp only [if_pos] at hd
    cases huc : (userCodesHigh batch_diff).head? with
    | none => rw [huc] at hd; cases hd
    | some uc =>
      rw [huc] at hd
      injection hd with hd
      exact ⟨by rw [← hd], uc, rfl, by rw [← hd]⟩

/-- Witness for C6: on the scenario batch, declining to share (scripted
input no) mockifies the private result with no grants; sharing everything
grants READ to the governing user key 7 without mockification. -/
theorem private_diff_share_decision_witness :
    ((wBatchDeclinedDecisions.get ⟨2, by decide⟩).mockify = true
      ∧ (wBatchDeclinedDecisions.get ⟨2, by decide⟩).new_permissions_lowside
        = [])
    ∧ ((wBatchSharedDecisions.get ⟨2, by decide⟩).mockify = false
      ∧ ∃ uc, (userCodesHigh wBatch).head? = some uc
          ∧ (wBatchSharedDecisions.get ⟨2, by decide⟩).new_permissions_lowside
            = [⟨(wBatch.diffs.get ⟨2, by decide⟩).object_id, .READ,
                uc.user_verify_key⟩]) :=
  ⟨(private_diff_share_decision wBatch "low" false ["no"]
      wBatchDeclinedDecisions [] [] [] 2 (.other true) rfl rfl (by decide)
      (by decide) rfl rfl rfl).1 (by decide),
   (private_diff_share_decision wBatch "low" true []
      wBatchSharedDecisions [] [] [wRes] 2 (.other true) rfl rfl (by decide)
      (by decide) rfl rfl rfl).2 (by decide)⟩

/-- The resolve loop treats a batch whose diffs are all SAME as absent: the
loop's result is unchanged when such a batch is removed from the batch
list, whatever the accumulators and the remaining interactive script. -/
theorem resolveLoop_skips_all_same (share : Bool) (decision : Option String)
    (b : ObjectDiffBatch) (post : List ObjectDiffBatch)
    (hsame : b.diffs.all (fun diff => diff.status = "SAME") = true) :
    ∀ (pre : List ObjectDiffBatch) (lo hi : ResolvedSyncState)
      (script : List String),
      resolveLoop share decision (pre ++ b :: post) lo hi script =
        resolveLoop share decision (pre ++ post) lo hi script := by
  intro pre
  induction pre with
  | nil =>
    intro lo hi script
    simp only [List.nil_append, resolveLoop, hsame, if_pos]
  | cons x pre ih =>
    intro lo hi script
    simp only [List.cons_append, resolveLoop]
    split
    · exact ih lo hi script
    · split
      · rfl
      · split
        · rfl
        · exact ih _ _ _

/-- C8: a batch in which every diff has status SAME contributes no
`SyncDecision` to either resolved state and consumes no interactive input:
`resolve` behaves exactly as if the batch were not there. -/
theorem all_same_batch_skipped (pre post : List ObjectDiffBatch)
    (b : ObjectDiffBatch) (decision : Option String) (share : Bool)
    (script : List String)
    (hsame : b.diffs.all (fun diff => diff.status = "SAME") = true) :
    resolve ⟨pre ++ b :: post⟩ decision share script =
      resolve ⟨pre ++ post⟩ decision share script :=
  resolveLoop_skips_all_same share decision b post hsame pre _ _ script

/-- Witness for C8: dropping a concrete all-SAME batch leaves the resolved
states and leftover script unchanged. -/
theorem all_same_batch_skipped_witness :
    resolve ⟨[wSameBatch, wBatch]⟩ (some "low") true [] =
      resolve ⟨[wBatch]⟩ (some "low") true [] :=
  all_same_batch_skipped [] [wBatch] wSameBatch (some "low") true []
    (by decide)

/-- C9 counterexample: with two private candidates whose ids share the
three-character prefix 100, a scripted ambiguous input does NOT re-prompt:
the selection dialog returns at once with nothing shared and the next
scripted input (which a re-prompt would have consumed) still unread. -/
theorem ambiguous_match_does_not_reprompt :
    ask_user_input_permission (some (.userCode 7 false)) [wRes, wRes2]
      ["100", "no"] = .ok ([], ["no"])
    ∧ ¬ ask_user_input_permission (some (.userCode 7 false)) [wRes, wRes2]
      ["100", "no"] = .ok ([], []) := by
  constructor
  · rfl
  · intro hcon
    rw [show ask_user_input_permission (some (.userCode 7 false)) [wRes, wRes2]
        ["100", "no"] = .ok ([], ["no"]) from rfl] at hcon
    injection hcon with hcon
    have := congrArg Prod.snd hcon
    simp at this

/-- C9 (amended): on an ambiguous prefix match (more than one remaining
candidate id starts with the typed prefix) the interactive sharing loop
exits immediately — returning the selections made so far, sharing none of
the remaining candidates and consuming no further input — rather than
guessing; a non-matching selection or a too-short input re-prompts; in all
three cases the loop continues or returns normally, so the condition is
recovered locally and never surfaces as an error. -/
theorem ambiguous_selection_exits_loop (remaining shared : List ObjectDiff)
    (res : String) (rest : List String)
    (hne : remaining.isEmpty = false) (hlen : 3 ≤ res.length) :
    (1 < (remaining.filter
        (fun d => pyStartsWith (toString d.object_id) res)).length →
      askLoop remaining shared (res :: rest) = .ok (shared, rest))
    ∧ ((remaining.filter
        (fun d => pyStartsWith (toString d.object_id) res)).length = 0 →
      askLoop remaining shared (res :: rest) = askLoop remaining shared rest)
    ∧ (∀ res2 : String, res2.length < 3 → ¬ res2 = "no" →
      askLoop remaining shared (res2 :: rest) =
        askLoop remaining shared rest) := by
  have hno : ¬ res = "no" := by
    intro hcon
    rw [hcon] at hlen
    exact absurd hlen (by decide)
  refine ⟨?_, ?_, ?_⟩
  · intro hamb
    rw [askLoop, if_neg (by simp [hne]), if_neg hno, if_pos hlen]
    cases hfil : remaining.filter
        (fun d => pyStartsWith (toString d.object_id) res) with
    | nil => rw [hfil] at hamb; simp at hamb
    | cons x t =>
      cases t with
      | nil => rw [hfil] at hamb; simp at hamb
      | cons y l => rfl
  · intro hzero
    rw [askLoop, if_neg (by simp [hne]), if_neg hno, if_pos hlen]
    cases hfil : remaining.filter
        (fun d => pyStartsWith (toString d.object_id) res) with
    | nil => rfl
    | cons x t => rw [hfil] at hzero; simp at hzero
  · intro res2 hshort hno2
    rw [askLoop, if_neg (by simp [hne]), if_neg hno2, if_neg (by omega)]

/-- Witness for the amended C9 at the concrete ambiguous scenario: the loop
exits with nothing shared and the rest of the script untouched. -/
theorem ambiguous_selection_exits_loop_witness :
    askLoop [wRes, wRes2] [] ["100", "no"] = .ok ([], ["no"]) :=
  (ambiguous_selection_exits_loop [wRes, wRes2] [] "100" ["no"]
    (by decide) (by decide)).1 (by decide)

end Syft
